import Mathlib

/-!
Verification development for the Aquila serving client
(`src/python/client.py`): a shallow embedding of its retry loop,
image preprocessing, demographic score tables, response
interpretation, connectivity callback and in-flight throttle,
with theorems about the specified behaviour.
-/

/-! ### Retry loop of `Predictor.predict` (client.py lines 289-324)

The loop `while cur_try < ntries` is embedded structurally on the
number of remaining iterations (`ntries - cur_try`).  Each iteration
increments `cur_try`, runs one `_predict` attempt, and on failure
sleeps `(1 << cur_try) * base_time * random.random()` before looping.
The attempt outcomes are a parameter (the backend is external), and
the random draws are a stream `rand : Nat → ℚ` indexed by `cur_try`.
-/

/-- Outcome of one `_predict` attempt as observed by the retry loop:
either a returned value or a raised, retryable exception
(`PredictionError` or any unexpected exception). -/
inductive Outcome where
  | success (v : ℚ)
  | failure
deriving DecidableEq

/-- Simulation of the body of `Predictor.predict`'s `while` loop.
`remaining` is `ntries - cur_try`.  Returns the returned score (if
any), the number of `_predict` attempts made, and the list of backoff
delays slept, in order.  The delay after failed attempt `ct` is
`(1 <<< ct) * base_time * rand ct`, i.e. `2 ^ ct * base_time * rand ct`. -/
def predictLoop (attempt : Nat → Outcome) (base_time : ℚ) (rand : Nat → ℚ) :
    Nat → Nat → Option ℚ × Nat × List ℚ
  | 0, _ => (none, 0, [])
  | remaining + 1, cur_try =>
    let ct := cur_try + 1
    match attempt ct with
    | Outcome.success v => (some v, 1, [])
    | Outcome.failure =>
      let delay := ((2 : ℚ) ^ ct) * base_time * rand ct
      let rest := predictLoop attempt base_time rand remaining ct
      (rest.1, rest.2.1 + 1, delay :: rest.2.2)

/-- Simulation of `Predictor.predict image ntries timeout base_time`:
the loop starts with `cur_try = 0` and runs while `cur_try < ntries`. -/
def predict (attempt : Nat → Outcome) (ntries : Nat) (base_time : ℚ)
    (rand : Nat → ℚ) : Option ℚ × Nat × List ℚ :=
  predictLoop attempt base_time rand ntries 0

/-! ### Demographic score tables (`DemographicSignatures`, client.py lines 138-240)

The pandas weight/bias tables, indexed by `(gender, age)` string
pairs, are embedded as association lists; a missing key is a
`KeyError` and a feature/weight length mismatch is the `ValueError`
raised by `X.dot(W)` (the spec names these `UnknownDemographicError`
and `DimensionMismatchError`). -/

/-- Failure modes of a demographic score computation: `keyErr` is the
`KeyError` for a demographic key absent from the tables,
`dimErr` the `ValueError` for a feature/weight length mismatch. -/
inductive DemoErr where
  | keyErr
  | dimErr
deriving DecidableEq

/-- Weight and bias tables of `DemographicSignatures`, keyed by
`(gender, age)` strings. -/
structure DemographicSignatures where
  weights : List ((String × String) × List ℚ)
  bias : List ((String × String) × ℚ)
deriving DecidableEq

/-- Normalisation performed by `_safe_get_weights` / `_safe_get_bias`:
a `None` gender or age is replaced by the string `'None'` before the
table lookup. -/
def normDemo (s : Option String) : String := s.getD "None"

/-- Embedding of `DemographicSignatures._safe_get_weights`. -/
def safe_get_weights (sigs : DemographicSignatures) (gender age : Option String) :
    Except DemoErr (List ℚ) :=
  match sigs.weights.lookup (normDemo gender, normDemo age) with
  | some w => Except.ok w
  | none => Except.error DemoErr.keyErr

/-- Embedding of `DemographicSignatures._safe_get_bias`. -/
def safe_get_bias (sigs : DemographicSignatures) (gender age : Option String) :
    Except DemoErr ℚ :=
  match sigs.bias.lookup (normDemo gender, normDemo age) with
  | some b => Except.ok b
  | none => Except.error DemoErr.keyErr

/-- Dot product of two feature vectors (defined on equal lengths;
`compute_score_for_demo` only applies it after its length check). -/
def dotQ (xs ws : List ℚ) : ℚ := (List.zipWith (fun a b => a * b) xs ws).sum

/-- Embedding of `DemographicSignatures.compute_score_for_demo`: fetch
the bias, then the weights (each may raise `KeyError`), then compute
`X.dot(W) + b`, which raises `ValueError` when the lengths disagree. -/
def compute_score_for_demo (sigs : DemographicSignatures) (X : List ℚ)
    (gender age : Option String) : Except DemoErr ℚ :=
  match safe_get_bias sigs gender age with
  | Except.error e => Except.error e
  | Except.ok b =>
    match safe_get_weights sigs gender age with
    | Except.error e => Except.error e
    | Except.ok W =>
      if X.length ≠ W.length then Except.error DemoErr.dimErr
      else Except.ok (dotQ X W + b)

/-! ### Image preprocessing (client.py lines 36-136)

Images are embedded as a size plus a total pixel function
(`px x y` is the pixel at column `x`, row `y`, a `(r, g, b)` triple of
naturals; PIL coordinates).  Python 2 `/` on ints is floor division
and `int()` on the nonnegative floats involved truncates, both
embedded as `Nat` division and `Int.floor ∘ Rat` respectively.
`Image.paste(img, box)` writes `img`'s pixels into the box and leaves
the rest of the canvas; the canvas of `_pad_to_asp` is filled with
`MEAN_CHANNEL_VALS`.  The `ANTIALIAS` resampling kernel of
`Image.resize` is external PIL code; its pixel values are stood in
for by nearest sampling (no claim depends on resampled values, only
on the output size). -/

/-- Mean training-set pixel value per channel:
`[92.366, 85.133, 81.674]` rounded and cast to `uint8`. -/
def MEAN_CHANNEL_VALS : Nat × Nat × Nat := (92, 85, 82)

/-- An image: width, height, and a total pixel function. -/
@[ext]
structure PImage where
  w : Nat
  h : Nat
  px : Nat → Nat → Nat × Nat × Nat

/-- Embedding of `_pad_to_asp img asp`: symmetrically pad `img` onto a
`MEAN_CHANNEL_VALS` canvas so that its aspect ratio (w / h) becomes
`asp`; an image already at ratio `asp` is returned as is. -/
def pad_to_asp (img : PImage) (asp : ℚ) : PImage :=
  let oasp : ℚ := (img.w : ℚ) / (img.h : ℚ)
  if asp > oasp then
    let nw : Nat := (⌊(img.h : ℚ) * asp⌋).toNat
    let left : Nat := (nw - img.w) / 2
    { w := nw, h := img.h,
      px := fun x y =>
        if left ≤ x ∧ x < left + img.w ∧ y < img.h then img.px (x - left) y
        else MEAN_CHANNEL_VALS }
  else if asp < oasp then
    let nh : Nat := (⌊(img.w : ℚ) / asp⌋).toNat
    let upper : Nat := (nh - img.h) / 2
    { w := img.w, h := nh,
      px := fun x y =>
        if x < img.w ∧ upper ≤ y ∧ y < upper + img.h then img.px x (y - upper)
        else MEAN_CHANNEL_VALS }
  else img

/-- Stand-in pixel sampling for PIL's external resampling kernel. -/
def resample (img : PImage) (w h : Nat) : Nat → Nat → Nat × Nat × Nat :=
  fun x y => img.px (x * img.w / w) (y * img.h / h)

/-- Embedding of `_resize_to img w h`: with one dimension given the
other is derived from the current aspect ratio; with both given the
image is resized to exactly `(w, h)`. -/
def resize_to (img : PImage) (w h : Option Nat) : PImage :=
  match w, h with
  | none, none => img
  | none, some h =>
    let asp : ℚ := (img.w : ℚ) / (img.h : ℚ)
    let w := (⌊(h : ℚ) * asp⌋).toNat
    { w := w, h := h, px := resample img w h }
  | some w, none =>
    let asp : ℚ := (img.w : ℚ) / (img.h : ℚ)
    let h := (⌊(w : ℚ) / asp⌋).toNat
    { w := w, h := h, px := resample img w h }
  | some w, some h => { w := w, h := h, px := resample img w h }

/-- Embedding of `image[:,:,::-1]`: reverse the channel order of every
pixel (BGR to RGB). -/
def reverseChannels (img : PImage) : PImage :=
  { img with px := fun x y =>
      ((img.px x y).2.2, (img.px x y).2.1, (img.px x y).1) }

/-- Embedding of `np.array(img).astype(np.uint8)`: each channel is
reduced mod 256. -/
def toUint8 (img : PImage) : PImage :=
  { img with px := fun x y =>
      ((img.px x y).1 % 256, (img.px x y).2.1 % 256, (img.px x y).2.2 % 256) }

/-- Embedding of `_aquila_prep`: reverse the channels, pad to aspect
ratio 16/9, resize to 299 x 299, output as uint8. -/
def aquila_prep (image : PImage) : PImage :=
  toUint8 (resize_to (pad_to_asp (reverseChannels image) (16 / 9))
    (some 299) (some 299))

/-! ### Response interpretation in `DeepnetPredictor._predict`
(client.py lines 494-555)

The tail of `_predict` after the RPC: a `None` response is a
`PredictionError`; the model version falls back to `'aqv1.1.250'`
when absent or empty; a single-element valence is returned directly
with no demographic lookup; otherwise the valence is the feature
vector, and the demographic score is computed from the
`DemographicSignatures` for the response's model version, with a
`KeyError` (from loading the signatures or from an unknown
demographic key) caught and degraded to a `None` score, while the
`ValueError` of a dimension mismatch propagates. -/

/-- Errors escaping `_predict`: `predictionError` for
`PredictionError`, `valueError` for the uncaught `ValueError` of a
feature/weight dimension mismatch. -/
inductive PredErr where
  | predictionError
  | valueError
deriving DecidableEq

/-- An `AquilaResponse`-shaped RPC reply: valence vector plus the
optional model version string. -/
structure AquilaResponse where
  valence : List ℚ
  model_version : Option String
deriving DecidableEq

/-- Fallback model version used when the response has none. -/
def FALLBACK_MODEL_VERSION : String := "aqv1.1.250"

/-- Embedding of `response.model_version or 'aqv1.1.250'` (an absent
or empty string is falsy). -/
def response_version (r : AquilaResponse) : String :=
  match r.model_version with
  | none => FALLBACK_MODEL_VERSION
  | some s => if s = "" then FALLBACK_MODEL_VERSION else s

/-- Embedding of `_predict`'s interpretation of an RPC response
(client.py lines 532-555).  `loadSigs` models the
`DemographicSignatures(model_version)` constructor: `none` is the
`KeyError` it raises when the weight/bias files cannot be read. -/
def interpret_response (loadSigs : String → Option DemographicSignatures)
    (gender age : Option String) (response : Option AquilaResponse) :
    Except PredErr (Option ℚ × Option (List ℚ) × String) :=
  match response with
  | none => Except.error PredErr.predictionError
  | some r =>
    let vers := response_version r
    if r.valence.length = 1 then Except.ok (r.valence.head?, none, vers)
    else
      let features := r.valence
      match r.model_version with
      | none => Except.ok (none, some features, vers)
      | some mv =>
        match loadSigs mv with
        | none => Except.ok (none, some features, vers)
        | some sigs =>
          match compute_score_for_demo sigs features gender age with
          | Except.ok score => Except.ok (some score, some features, vers)
          | Except.error DemoErr.keyErr => Except.ok (none, some features, vers)
          | Except.error DemoErr.dimErr => Except.error PredErr.valueError

/-- One full `DeepnetPredictor._predict` attempt, with the RPC itself
as a parameter (`rpc` is the awaited future: an exception, or a
response that may be `None`).  The shutdown flag is checked first
(client.py lines 500-501) and fails the attempt with
`PredictionError` before anything else happens; the returned `Bool`
records whether an RPC was issued. -/
def deepnet_predict (shutting_down : Bool)
    (rpc : Except Unit (Option AquilaResponse))
    (loadSigs : String → Option DemographicSignatures)
    (gender age : Option String) :
    Except PredErr (Option ℚ × Option (List ℚ) × String) × Bool :=
  if shutting_down then (Except.error PredErr.predictionError, false)
  else
    match rpc with
    | Except.error _ => (Except.error PredErr.predictionError, true)
    | Except.ok response => (interpret_response loadSigs gender age response, true)

/-! ### `DeepnetPredictor.__init__` (client.py lines 397-431) -/

/-- State set up by `DeepnetPredictor.__init__` (the fields the
claims are about; channel, stub and lock handles are external). -/
structure DeepnetPredictorState where
  concurrency : Nat
  port : Nat
  active : Int
  shutting_down : Bool
  consequtive_connection_failures : Nat
  gender : Option String
  age : Option String
deriving DecidableEq

/-- Embedding of `DeepnetPredictor.__init__`: note lines 430-431
assign the literals `None` to `self.gender` and `self.age`, not the
constructor arguments. -/
def DeepnetPredictor_init (concurrency port : Nat) (gender age : Option String) :
    DeepnetPredictorState :=
  { concurrency := concurrency, port := port, active := 0,
    shutting_down := false, consequtive_connection_failures := 0,
    gender := none, age := none }

/-! ### Connectivity callback `DeepnetPredictor._check_conn`
(client.py lines 473-492)

On `TRANSIENT_FAILURE` or `FATAL_FAILURE` the consecutive-failure
counter is incremented, the callback sleeps
`(count << 1) * 0.1 * random.random()`, and `_reconnect` clears the
ready event.  Otherwise an already-set ready event is left alone, and
`READY` sets it and resets the counter. -/

/-- gRPC channel connectivity values seen by `_check_conn`. -/
inductive ConnStatus where
  | CONNECTING
  | READY
  | TRANSIENT_FAILURE
  | FATAL_FAILURE
  | SHUTDOWN
deriving DecidableEq

/-- Connection state touched by `_check_conn`: the
consecutive-failure counter and the ready event. -/
structure ConnState where
  consequtive_connection_failures : Nat
  readySet : Bool
deriving DecidableEq

/-- Embedding of `_check_conn` on one status event with jitter draw
`r`: returns the new state and the slept duration, if any. -/
def check_conn (s : ConnState) (status : ConnStatus) (r : ℚ) :
    ConnState × Option ℚ :=
  if status = ConnStatus.TRANSIENT_FAILURE ∨ status = ConnStatus.FATAL_FAILURE then
    let f := s.consequtive_connection_failures + 1
    ({ consequtive_connection_failures := f, readySet := false },
      some ((2 * f : ℚ) * (1 / 10) * r))
  else if s.readySet then (s, none)
  else if status = ConnStatus.READY then
    ({ consequtive_connection_failures := 0, readySet := true }, none)
  else (s, none)

/-- Run `_check_conn` over a sequence of (status, jitter) events,
collecting the backoff sleeps in order. -/
def run_conn : ConnState → List (ConnStatus × ℚ) → ConnState × List ℚ
  | s, [] => (s, [])
  | s, (st, r) :: rest =>
    let step := check_conn s st r
    let tail := run_conn step.1 rest
    (tail.1, match step.2 with
      | some d => d :: tail.2
      | none => tail.2)

/-! ### In-flight request throttle (client.py lines 516-530, 557-565)

Each `_predict` call increments `self.active` under `self._cv` just
before issuing the RPC and decrements it in a `finally` block (so the
decrement also runs when the RPC raises); `complete` waits under the
same condition variable `while self.active > 0`.  Concurrency is
embedded as interleaved traces of admit/release events, one pair per
request: a request releases only after (and because of) its own
admit, and at most once — which is exactly what the
increment / `try` / `finally`-decrement structure guarantees. -/

/-- One event on the shared counter: request `t` is admitted
(`self.active += 1`) or completes (`self.active -= 1` in the
`finally`). -/
inductive ThrottleEv where
  | enter (t : Nat)
  | release (t : Nat)
deriving DecidableEq

/-- State of the throttle: the `self.active` counter, plus ghost sets
of the requests admitted and released so far. -/
structure ThrottleState where
  active : Int
  admitted : Finset Nat
  released : Finset Nat
deriving DecidableEq

/-- Initial throttle state (`self.active = 0` from `__init__`). -/
def throttle_init : ThrottleState := ⟨0, ∅, ∅⟩

/-- One step of the throttle.  The guards encode the per-request
protocol forced by the code: a request is admitted at most once, and
releases only after its own admit and at most once.  An event outside
the protocol is rejected (`none`): no interleaving can produce it. -/
def throttle_step (s : ThrottleState) : ThrottleEv → Option ThrottleState
  | ThrottleEv.enter t =>
    if t ∈ s.admitted then none
    else some { active := s.active + 1, admitted := insert t s.admitted,
                released := s.released }
  | ThrottleEv.release t =>
    if t ∈ s.admitted ∧ t ∉ s.released then
      some { active := s.active - 1, admitted := s.admitted,
             released := insert t s.released }
    else none

/-- Run the throttle over an interleaved trace of events. -/
def throttle_run : ThrottleState → List ThrottleEv → Option ThrottleState
  | s, [] => some s
  | s, e :: es =>
    match throttle_step s e with
    | none => none
    | some s2 => throttle_run s2 es

/-- Number of admissions in a trace. -/
def countAdmit : List ThrottleEv → Nat
  | [] => 0
  | ThrottleEv.enter _ :: es => countAdmit es + 1
  | ThrottleEv.release _ :: es => countAdmit es

/-- Number of completions in a trace. -/
def countRelease : List ThrottleEv → Nat
  | [] => 0
  | ThrottleEv.enter _ :: es => countRelease es
  | ThrottleEv.release _ :: es => countRelease es + 1

/-- Throttle invariant: every released request was admitted, and the
counter equals admitted minus released. -/
def ThrottleInv (s : ThrottleState) : Prop :=
  s.released ⊆ s.admitted ∧
    s.active = (s.admitted.card : Int) - (s.released.card : Int)

/-! ### Theorems -/

/-- Closed form of the loop when every attempt fails: all `remaining`
attempts are made and the delay after the k-th of them (at
`cur_try = c + k`) is `2 ^ (c + k) * base_time * rand (c + k)`. -/
theorem predictLoop_allFail (base_time : ℚ) (rand : Nat → ℚ) :
    ∀ remaining cur_try,
      predictLoop (fun _ => Outcome.failure) base_time rand remaining cur_try =
        (none, remaining,
          (List.range remaining).map
            (fun i => ((2 : ℚ) ^ (cur_try + 1 + i)) * base_time * rand (cur_try + 1 + i))) := by
  intro remaining
  induction remaining with
  | zero => intro c; simp [predictLoop]
  | succ n ih =>
    intro c
    simp only [predictLoop, ih (c + 1)]
    refine Prod.ext rfl (Prod.ext rfl ?_)
    simp only [List.range_succ_eq_map, List.map_cons, List.map_map]
    refine List.cons_eq_cons.mpr ⟨by ring_nf, ?_⟩
    apply List.map_congr_left
    intro i _
    simp only [Function.comp]
    have h : c + 1 + 1 + i = c + 1 + (i + 1) := by omega
    rw [h]

/-- Closed form for `predict` when every attempt fails. -/
theorem predict_allFail (ntries : Nat) (base_time : ℚ) (rand : Nat → ℚ) :
    predict (fun _ => Outcome.failure) ntries base_time rand =
      (none, ntries,
        (List.range ntries).map
          (fun i => ((2 : ℚ) ^ (i + 1)) * base_time * rand (i + 1))) := by
  unfold predict
  rw [predictLoop_allFail]
  refine Prod.ext rfl (Prod.ext rfl ?_)
  apply List.map_congr_left
  intro i _
  have h : 0 + 1 + i = i + 1 := by omega
  rw [h]

/-- `throttle_step` preserves the invariant and advances the ghost
sets by exactly the event's kind. -/
theorem throttle_step_inv {s s2 : ThrottleState} {e : ThrottleEv}
    (hI : ThrottleInv s) (h : throttle_step s e = some s2) :
    ThrottleInv s2 ∧
      s2.admitted.card = s.admitted.card +
        (match e with | ThrottleEv.enter _ => 1 | ThrottleEv.release _ => 0) ∧
      s2.released.card = s.released.card +
        (match e with | ThrottleEv.enter _ => 0 | ThrottleEv.release _ => 1) := by
  obtain ⟨hsub, hcount⟩ := hI
  cases e with
  | enter t =>
    simp only [throttle_step] at h
    by_cases ht : t ∈ s.admitted
    · simp [ht] at h
    · simp only [ht, if_false] at h
      cases h
      refine ⟨⟨?_, ?_⟩, ?_, ?_⟩
      · exact hsub.trans (Finset.subset_insert t s.admitted)
      · simp [Finset.card_insert_of_not_mem ht, hcount]; push_cast; ring
      · simp [Finset.card_insert_of_not_mem ht]
      · simp
  | release t =>
    simp only [throttle_step] at h
    by_cases ht : t ∈ s.admitted ∧ t ∉ s.released
    · simp only [ht, if_true] at h
      cases h
      refine ⟨⟨?_, ?_⟩, ?_, ?_⟩
      · exact Finset.insert_subset ht.1 hsub
      · simp [Finset.card_insert_of_not_mem ht.2, hcount]; push_cast; ring
      · simp
      · simp [Finset.card_insert_of_not_mem ht.2]
    · simp [ht] at h

/-- Running any valid trace preserves the invariant and the ghost-set
cardinalities track the event counts. -/
theorem throttle_run_inv :
    ∀ (tr : List ThrottleEv) (s s2 : ThrottleState),
      ThrottleInv s → throttle_run s tr = some s2 →
      ThrottleInv s2 ∧
        s2.admitted.card = s.admitted.card + countAdmit tr ∧
        s2.released.card = s.released.card + countRelease tr := by
  intro tr
  induction tr with
  | nil =>
    intro s s2 hI h
    simp only [throttle_run] at h
    cases h
    exact ⟨hI, by simp [countAdmit], by simp [countRelease]⟩
  | cons e es ih =>
    intro s s2 hI h
    simp only [throttle_run] at h
    cases hstep : throttle_step s e with
    | none => rw [hstep] at h; cases h
    | some s1 =>
      rw [hstep] at h
      obtain ⟨hI1, ha1, hr1⟩ := throttle_step_inv hI hstep
      obtain ⟨hI2, ha2, hr2⟩ := ih s1 s2 hI1 h
      refine ⟨hI2, ?_, ?_⟩ <;> cases e <;>
        simp [countAdmit, countRelease, ha2, hr2, ha1, hr1] <;> omega

/-- C1: for every image and every `ntries ≥ 1`, if every `_predict`
attempt fails, `Predictor.predict` makes at most `ntries` RPC
attempts, and the delay slept after failed attempt `k` equals
`2 ^ k * base_time * r` for some `r ∈ [0, 1)`. -/
theorem predict_attempt_bound_and_backoff (ntries : Nat) (base_time : ℚ)
    (rand : Nat → ℚ) (hrand : ∀ k, 0 ≤ rand k ∧ rand k < 1)
    (hn : 1 ≤ ntries) :
    (predict (fun _ => Outcome.failure) ntries base_time rand).2.1 ≤ ntries ∧
    ∀ k, 1 ≤ k → k ≤ ntries →
      ∃ r, 0 ≤ r ∧ r < 1 ∧
        (predict (fun _ => Outcome.failure) ntries base_time rand).2.2.getD (k - 1) 0 =
          ((2 : ℚ) ^ k) * base_time * r := by
  rw [predict_allFail]
  constructor
  · simp
  · intro k hk1 hk2
    refine ⟨rand k, (hrand k).1, (hrand k).2, ?_⟩
    have hlen : k - 1 <
        ((List.range ntries).map
          (fun i => ((2 : ℚ) ^ (i + 1)) * base_time * rand (i + 1))).length := by
      simp; omega
    rw [List.getD_eq_getElem?_getD, List.getElem?_eq_getElem hlen]
    simp only [Option.getD_some, List.getElem_map, List.getElem_range]
    have h : k - 1 + 1 = k := by omega
    rw [h]

/-- Witness for `predict_attempt_bound_and_backoff` at
`ntries = 3`, `base_time = 2/5`, constant jitter `1/2`. -/
theorem predict_attempt_bound_and_backoff_witness :
    (∀ k : Nat, 0 ≤ (fun _ : Nat => (1 : ℚ) / 2) k ∧
      (fun _ : Nat => (1 : ℚ) / 2) k < 1) ∧ (1 ≤ 3) ∧
    ((predict (fun _ => Outcome.failure) 3 (2 / 5) (fun _ => (1 : ℚ) / 2)).2.1 ≤ 3 ∧
      ∀ k, 1 ≤ k → k ≤ 3 →
        ∃ r, 0 ≤ r ∧ r < 1 ∧
          (predict (fun _ => Outcome.failure) 3 (2 / 5)
              (fun _ => (1 : ℚ) / 2)).2.2.getD (k - 1) 0 =
            ((2 : ℚ) ^ k) * (2 / 5) * r) :=
  ⟨fun _ => by norm_num, by norm_num,
    predict_attempt_bound_and_backoff 3 (2 / 5) (fun _ => (1 : ℚ) / 2)
      (fun _ => by norm_num) (by norm_num)⟩

/-- C2 counterexample: with the shutdown flag set, a `_predict`
attempt does fail fast with `PredictionError` and no RPC, but
`Predictor.predict` with `ntries = 3` still performs 3 attempts
(and 3 backoff sleeps), not 1 attempt with no retries as claimed:
the `PredictionError` is caught by the retry loop and retried. -/
theorem predict_shutdown_counterexample :
    (deepnet_predict true (Except.ok none) (fun _ => none) none none).1 =
      Except.error PredErr.predictionError ∧
    (predict (fun _ => Outcome.failure) 3 (2 / 5) (fun _ => (1 : ℚ) / 2)).2.1 = 3 ∧
    (predict (fun _ => Outcome.failure) 3 (2 / 5) (fun _ => (1 : ℚ) / 2)).2.1 ≠ 1 ∧
    (predict (fun _ => Outcome.failure) 3 (2 / 5) (fun _ => (1 : ℚ) / 2)).2.2.length = 3 := by
  refine ⟨rfl, rfl, ?_, rfl⟩
  decide

/-- C2 amended: once `shutdown()` has set the flag, every `_predict`
attempt fails immediately at the shutdown check with
`PredictionError`, without issuing any RPC; but the retry loop of
`Predictor.predict` catches that error and retries, so the call
performs all `ntries` attempts, sleeping after each, before failing. -/
theorem predict_shutdown_fails_fast_each_attempt (ntries : Nat)
    (base_time : ℚ) (rand : Nat → ℚ) :
    (∀ (rpc : Except Unit (Option AquilaResponse))
       (loadSigs : String → Option DemographicSignatures)
       (gender age : Option String),
      deepnet_predict true rpc loadSigs gender age =
        (Except.error PredErr.predictionError, false)) ∧
    (predict (fun _ => Outcome.failure) ntries base_time rand).1 = none ∧
    (predict (fun _ => Outcome.failure) ntries base_time rand).2.1 = ntries ∧
    (predict (fun _ => Outcome.failure) ntries base_time rand).2.2.length = ntries := by
  refine ⟨fun _ _ _ _ => rfl, ?_, ?_, ?_⟩ <;> rw [predict_allFail] <;> simp

/-- C4: when the response carries a full feature vector (valence
length ≠ 1) and the demographic lookup for its model version and the
caller's `(gender, age)` key fails with a `KeyError` (missing
signature files or unknown key), `_predict` does not fail: it returns
`(None, feature vector, version)`. -/
theorem predict_degrades_on_demo_lookup_failure
    (loadSigs : String → Option DemographicSignatures)
    (gender age : Option String) (r : AquilaResponse) (mv : String)
    (hmv : r.model_version = some mv)
    (hlen : r.valence.length ≠ 1)
    (hfail : loadSigs mv = none ∨
      ∃ sigs, loadSigs mv = some sigs ∧
        compute_score_for_demo sigs r.valence gender age =
          Except.error DemoErr.keyErr) :
    interpret_response loadSigs gender age (some r) =
      Except.ok (none, some r.valence, response_version r) := by
  simp only [interpret_response, hmv, if_neg hlen]
  rcases hfail with h | ⟨sigs, hs, hc⟩
  · rw [h]
  · rw [hs]
    simp only [hc]

/-- Witness for `predict_degrades_on_demo_lookup_failure`: a
two-element valence with model version `"aqv1"`, signature loading
failing. -/
theorem predict_degrades_on_demo_lookup_failure_witness :
    (AquilaResponse.mk [1, 2] (some "aqv1")).model_version = some "aqv1" ∧
    (AquilaResponse.mk [1, 2] (some "aqv1")).valence.length ≠ 1 ∧
    ((fun _ : String => (none : Option DemographicSignatures)) "aqv1" = none ∨
      ∃ sigs, (fun _ : String => (none : Option DemographicSignatures)) "aqv1" = some sigs ∧
        compute_score_for_demo sigs (AquilaResponse.mk [1, 2] (some "aqv1")).valence
          none none = Except.error DemoErr.keyErr) ∧
    interpret_response (fun _ => none) none none
        (some (AquilaResponse.mk [1, 2] (some "aqv1"))) =
      Except.ok (none, some (AquilaResponse.mk [1, 2] (some "aqv1")).valence,
        response_version (AquilaResponse.mk [1, 2] (some "aqv1"))) :=
  ⟨rfl, by decide, Or.inl rfl,
    predict_degrades_on_demo_lookup_failure (fun _ => none) none none
      (AquilaResponse.mk [1, 2] (some "aqv1")) "aqv1" rfl (by decide) (Or.inl rfl)⟩

/-- C8: for every feature vector whose length differs from the weight
vector found for the demographic key, `compute_score_for_demo` fails
with the dimension-mismatch error (the `ValueError` of `X.dot(W)`);
it never returns a score computed from truncated vectors. -/
theorem compute_score_dim_mismatch (sigs : DemographicSignatures)
    (X W : List ℚ) (b : ℚ) (gender age : Option String)
    (hb : safe_get_bias sigs gender age = Except.ok b)
    (hW : safe_get_weights sigs gender age = Except.ok W)
    (hlen : X.length ≠ W.length) :
    compute_score_for_demo sigs X gender age = Except.error DemoErr.dimErr ∧
    ∀ v, compute_score_for_demo sigs X gender age ≠ Except.ok v := by
  have h : compute_score_for_demo sigs X gender age = Except.error DemoErr.dimErr := by
    simp only [compute_score_for_demo, hb, hW, if_pos hlen]
  exact ⟨h, fun v hv => by rw [h] at hv; cases hv⟩

/-- Witness for `compute_score_dim_mismatch`: a table whose only
weight vector has length 2, queried with a length-1 feature vector. -/
theorem compute_score_dim_mismatch_witness :
    safe_get_bias ⟨[(("M", "20-29"), [1, 2])], [(("M", "20-29"), 1 / 10)]⟩
        (some "M") (some "20-29") = Except.ok (1 / 10) ∧
    safe_get_weights ⟨[(("M", "20-29"), [1, 2])], [(("M", "20-29"), 1 / 10)]⟩
        (some "M") (some "20-29") = Except.ok [1, 2] ∧
    ([(5 : ℚ)].length ≠ [(1 : ℚ), 2].length) ∧
    (compute_score_for_demo ⟨[(("M", "20-29"), [1, 2])], [(("M", "20-29"), 1 / 10)]⟩
        [5] (some "M") (some "20-29") = Except.error DemoErr.dimErr ∧
      ∀ v, compute_score_for_demo ⟨[(("M", "20-29"), [1, 2])], [(("M", "20-29"), 1 / 10)]⟩
        [5] (some "M") (some "20-29") ≠ Except.ok v) :=
  ⟨rfl, rfl, by decide,
    compute_score_dim_mismatch ⟨[(("M", "20-29"), [1, 2])], [(("M", "20-29"), 1 / 10)]⟩
      [5] [1, 2] (1 / 10) (some "M") (some "20-29") rfl rfl (by decide)⟩

/-- C9: for every `(gender, age)` key whose normalised form is absent
from the weight or bias table, `compute_score_for_demo` fails with
the unknown-demographic `KeyError`; it never returns a score for a
different key. -/
theorem compute_score_unknown_demo (sigs : DemographicSignatures)
    (X : List ℚ) (gender age : Option String)
    (h : sigs.bias.lookup (normDemo gender, normDemo age) = none ∨
         sigs.weights.lookup (normDemo gender, normDemo age) = none) :
    compute_score_for_demo sigs X gender age = Except.error DemoErr.keyErr ∧
    ∀ v, compute_score_for_demo sigs X gender age ≠ Except.ok v := by
  have hk : compute_score_for_demo sigs X gender age = Except.error DemoErr.keyErr := by
    rcases h with h | h
    · simp only [compute_score_for_demo, safe_get_bias, h]
    · cases hb : sigs.bias.lookup (normDemo gender, normDemo age) with
      | none => simp only [compute_score_for_demo, safe_get_bias, hb]
      | some b =>
        simp only [compute_score_for_demo, safe_get_bias, hb, safe_get_weights, h]
  exact ⟨hk, fun v hv => by rw [hk] at hv; cases hv⟩

/-- Witness for `compute_score_unknown_demo`: a table containing only
the key `("M", "20-29")`, queried for `("F", "50+")`. -/
theorem compute_score_unknown_demo_witness :
    ((DemographicSignatures.mk [(("M", "20-29"), [1, 2])]
        [(("M", "20-29"), 1 / 10)]).bias.lookup
          (normDemo (some "F"), normDemo (some "50+")) = none ∨
      (DemographicSignatures.mk [(("M", "20-29"), [1, 2])]
        [(("M", "20-29"), 1 / 10)]).weights.lookup
          (normDemo (some "F"), normDemo (some "50+")) = none) ∧
    (compute_score_for_demo
        (DemographicSignatures.mk [(("M", "20-29"), [1, 2])] [(("M", "20-29"), 1 / 10)])
        [1, 2] (some "F") (some "50+") = Except.error DemoErr.keyErr ∧
      ∀ v, compute_score_for_demo
        (DemographicSignatures.mk [(("M", "20-29"), [1, 2])] [(("M", "20-29"), 1 / 10)])
        [1, 2] (some "F") (some "50+") ≠ Except.ok v) :=
  ⟨Or.inl rfl,
    compute_score_unknown_demo
      (DemographicSignatures.mk [(("M", "20-29"), [1, 2])] [(("M", "20-29"), 1 / 10)])
      [1, 2] (some "F") (some "50+") (Or.inl rfl)⟩

/-- C10: `DeepnetPredictor.__init__` stores `None` into both
`self.gender` and `self.age` for every value of its `gender` and
`age` arguments, so every demographic score computed by `_predict`
uses the `(None, None)` key — normalised to `("None", "None")` —
regardless of what the caller passed at construction. -/
theorem init_discards_demographics (concurrency port : Nat)
    (gender age : Option String) :
    (DeepnetPredictor_init concurrency port gender age).gender = none ∧
    (DeepnetPredictor_init concurrency port gender age).age = none ∧
    normDemo (DeepnetPredictor_init concurrency port gender age).gender = "None" ∧
    normDemo (DeepnetPredictor_init concurrency port gender age).age = "None" ∧
    ∀ (loadSigs : String → Option DemographicSignatures)
      (response : Option AquilaResponse),
      interpret_response loadSigs
          (DeepnetPredictor_init concurrency port gender age).gender
          (DeepnetPredictor_init concurrency port gender age).age response =
        interpret_response loadSigs none none response :=
  ⟨rfl, rfl, rfl, rfl, fun _ _ => rfl⟩

/-- C5: along every valid interleaving of admissions and completions,
the in-flight counter `self.active` is never negative; a trace with
`N` admissions and `N` completions always ends with the counter at 0;
and `complete`'s wait loop (`while self.active > 0`) can only exit —
i.e. `self.active ≤ 0` can only hold — when the counter is exactly 0. -/
theorem throttle_counter_correct (tr : List ThrottleEv) (s : ThrottleState)
    (N : Nat) (h : throttle_run throttle_init tr = some s) :
    0 ≤ s.active ∧
    (countAdmit tr = N → countRelease tr = N → s.active = 0) ∧
    (s.active ≤ 0 → s.active = 0) := by
  have hI0 : ThrottleInv throttle_init := by
    constructor <;> simp [throttle_init]
  obtain ⟨⟨hsub, hcount⟩, ha, hr⟩ := throttle_run_inv tr throttle_init s hI0 h
  have hle : s.released.card ≤ s.admitted.card := Finset.card_le_card hsub
  simp only [throttle_init, Finset.card_empty, Nat.zero_add] at ha hr
  refine ⟨by omega, fun hN hM => by omega, by omega⟩

/-- Witness for `throttle_counter_correct`: the interleaving
`admit 0, admit 1, release 1, release 0` of 2 admissions and 2
completions ends with the counter at 0. -/
theorem throttle_counter_correct_witness :
    throttle_run throttle_init
        [ThrottleEv.enter 0, ThrottleEv.enter 1,
         ThrottleEv.release 1, ThrottleEv.release 0] =
      some ⟨0, {1, 0}, {0, 1}⟩ ∧
    (0 ≤ (ThrottleState.mk 0 {1, 0} {0, 1}).active ∧
      (countAdmit [ThrottleEv.enter 0, ThrottleEv.enter 1,
          ThrottleEv.release 1, ThrottleEv.release 0] = 2 →
        countRelease [ThrottleEv.enter 0, ThrottleEv.enter 1,
          ThrottleEv.release 1, ThrottleEv.release 0] = 2 →
        (ThrottleState.mk 0 {1, 0} {0, 1}).active = 0) ∧
      ((ThrottleState.mk 0 {1, 0} {0, 1}).active ≤ 0 →
        (ThrottleState.mk 0 {1, 0} {0, 1}).active = 0)) :=
  ⟨by rfl,
    throttle_counter_correct
      [ThrottleEv.enter 0, ThrottleEv.enter 1,
       ThrottleEv.release 1, ThrottleEv.release 0]
      ⟨0, {1, 0}, {0, 1}⟩ 2 (by rfl)⟩

/-- C7 counterexample: three consecutive `TRANSIENT_FAILURE` events
with jitter draws `9/10, 0, 1/2` (all in `[0, 1)`) drive the failure
counter to 3, but the slept durations are `9/50, 0, 3/10`, which do
not strictly increase (`9/50 > 0`): the jitter factor can make a
later backoff sleep shorter than an earlier one. -/
theorem check_conn_counterexample :
    (run_conn ⟨0, false⟩
        [(ConnStatus.TRANSIENT_FAILURE, 9 / 10),
         (ConnStatus.TRANSIENT_FAILURE, 0),
         (ConnStatus.TRANSIENT_FAILURE, 1 / 2)]).1.consequtive_connection_failures = 3 ∧
    (run_conn ⟨0, false⟩
        [(ConnStatus.TRANSIENT_FAILURE, 9 / 10),
         (ConnStatus.TRANSIENT_FAILURE, 0),
         (ConnStatus.TRANSIENT_FAILURE, 1 / 2)]).2 = [9 / 50, 0, 3 / 10] ∧
    ¬ ((9 : ℚ) / 50 < 0) := by
  refine ⟨rfl, ?_, by norm_num⟩
  norm_num [run_conn, check_conn]

/-- C7 amended: three consecutive `TRANSIENT_FAILURE` events drive
the consecutive-failure counter to 3, and the duration slept after
the k-th failure is `(2 * k) * 0.1 * r_k` with `r_k ∈ [0, 1)` the
jitter draw — so the jitter-free bound `(2 * k) * 0.1` strictly
increases with each failure and each sleep is below its bound, but
the realised sleeps need not increase. -/
theorem check_conn_three_failures (r1 r2 r3 : ℚ)
    (h1 : 0 ≤ r1 ∧ r1 < 1) (h2 : 0 ≤ r2 ∧ r2 < 1) (h3 : 0 ≤ r3 ∧ r3 < 1) :
    (run_conn ⟨0, false⟩
        [(ConnStatus.TRANSIENT_FAILURE, r1),
         (ConnStatus.TRANSIENT_FAILURE, r2),
         (ConnStatus.TRANSIENT_FAILURE, r3)]).1.consequtive_connection_failures = 3 ∧
    (run_conn ⟨0, false⟩
        [(ConnStatus.TRANSIENT_FAILURE, r1),
         (ConnStatus.TRANSIENT_FAILURE, r2),
         (ConnStatus.TRANSIENT_FAILURE, r3)]).2 =
      [2 * 1 * (1 / 10) * r1, 2 * 2 * (1 / 10) * r2, 2 * 3 * (1 / 10) * r3] ∧
    2 * 1 * ((1 : ℚ) / 10) * r1 < 2 * 1 * (1 / 10) ∧
    2 * 2 * ((1 : ℚ) / 10) * r2 < 2 * 2 * (1 / 10) ∧
    2 * 3 * ((1 : ℚ) / 10) * r3 < 2 * 3 * (1 / 10) ∧
    2 * 1 * ((1 : ℚ) / 10) < 2 * 2 * (1 / 10) ∧
    2 * 2 * ((1 : ℚ) / 10) < 2 * 3 * (1 / 10) := by
  refine ⟨rfl, ?_, by nlinarith [h1.1, h1.2], by nlinarith [h2.1, h2.2],
    by nlinarith [h3.1, h3.2], by norm_num, by norm_num⟩
  norm_num [run_conn, check_conn]

/-- Witness for `check_conn_three_failures` at jitters `0, 1/2, 9/10`. -/
theorem check_conn_three_failures_witness :
    ((0 : ℚ) ≤ 0 ∧ (0 : ℚ) < 1) ∧ ((0 : ℚ) ≤ 1 / 2 ∧ (1 : ℚ) / 2 < 1) ∧
    ((0 : ℚ) ≤ 9 / 10 ∧ (9 : ℚ) / 10 < 1) ∧
    ((run_conn ⟨0, false⟩
        [(ConnStatus.TRANSIENT_FAILURE, 0),
         (ConnStatus.TRANSIENT_FAILURE, 1 / 2),
         (ConnStatus.TRANSIENT_FAILURE, 9 / 10)]).1.consequtive_connection_failures = 3 ∧
      (run_conn ⟨0, false⟩
        [(ConnStatus.TRANSIENT_FAILURE, 0),
         (ConnStatus.TRANSIENT_FAILURE, 1 / 2),
         (ConnStatus.TRANSIENT_FAILURE, 9 / 10)]).2 =
        [2 * 1 * (1 / 10) * 0, 2 * 2 * (1 / 10) * (1 / 2), 2 * 3 * (1 / 10) * (9 / 10)] ∧
      2 * 1 * ((1 : ℚ) / 10) * 0 < 2 * 1 * (1 / 10) ∧
      2 * 2 * ((1 : ℚ) / 10) * (1 / 2) < 2 * 2 * (1 / 10) ∧
      2 * 3 * ((1 : ℚ) / 10) * (9 / 10) < 2 * 3 * (1 / 10) ∧
      2 * 1 * ((1 : ℚ) / 10) < 2 * 2 * (1 / 10) ∧
      2 * 2 * ((1 : ℚ) / 10) < 2 * 3 * (1 / 10)) :=
  ⟨by norm_num, by norm_num, by norm_num,
    check_conn_three_failures 0 (1 / 2) (9 / 10)
      (by norm_num) (by norm_num) (by norm_num)⟩

/-- C3: for every image, `_aquila_prep` returns a 299 x 299 image of
3-channel pixels, each channel an unsigned 8-bit value, regardless of
the starting size. -/
theorem aquila_prep_shape (image : PImage) (hw : 1 ≤ image.w)
    (hh : 1 ≤ image.h) :
    (aquila_prep image).w = 299 ∧ (aquila_prep image).h = 299 ∧
    ∀ x y, ((aquila_prep image).px x y).1 < 256 ∧
      ((aquila_prep image).px x y).2.1 < 256 ∧
      ((aquila_prep image).px x y).2.2 < 256 := by
  refine ⟨rfl, rfl, fun x y => ?_⟩
  exact ⟨Nat.mod_lt _ (by norm_num), Nat.mod_lt _ (by norm_num),
    Nat.mod_lt _ (by norm_num)⟩

/-- Witness for `aquila_prep_shape` at a 1 x 1 black image. -/
theorem aquila_prep_shape_witness :
    1 ≤ (PImage.mk 1 1 (fun _ _ => (0, 0, 0))).w ∧
    1 ≤ (PImage.mk 1 1 (fun _ _ => (0, 0, 0))).h ∧
    ((aquila_prep (PImage.mk 1 1 (fun _ _ => (0, 0, 0)))).w = 299 ∧
      (aquila_prep (PImage.mk 1 1 (fun _ _ => (0, 0, 0)))).h = 299 ∧
      ∀ x y, ((aquila_prep (PImage.mk 1 1 (fun _ _ => (0, 0, 0)))).px x y).1 < 256 ∧
        ((aquila_prep (PImage.mk 1 1 (fun _ _ => (0, 0, 0)))).px x y).2.1 < 256 ∧
        ((aquila_prep (PImage.mk 1 1 (fun _ _ => (0, 0, 0)))).px x y).2.2 < 256) :=
  ⟨by decide, by decide,
    aquila_prep_shape (PImage.mk 1 1 (fun _ _ => (0, 0, 0))) (by decide) (by decide)⟩

/-- Branch of `_pad_to_asp` when the image is too narrow
(`asp > oasp`): pad out the width. -/
theorem pad_to_asp_of_lt (img : PImage) (asp : ℚ)
    (h : (img.w : ℚ) / (img.h : ℚ) < asp) :
    pad_to_asp img asp =
      { w := (⌊(img.h : ℚ) * asp⌋).toNat, h := img.h,
        px := fun x y =>
          if ((⌊(img.h : ℚ) * asp⌋).toNat - img.w) / 2 ≤ x ∧
             x < ((⌊(img.h : ℚ) * asp⌋).toNat - img.w) / 2 + img.w ∧ y < img.h
          then img.px (x - ((⌊(img.h : ℚ) * asp⌋).toNat - img.w) / 2) y
          else MEAN_CHANNEL_VALS } := by
  simp only [pad_to_asp]
  rw [if_pos h]

/-- Branch of `_pad_to_asp` when the image is too short
(`asp < oasp`): pad out the height. -/
theorem pad_to_asp_of_gt (img : PImage) (asp : ℚ)
    (h : asp < (img.w : ℚ) / (img.h : ℚ)) :
    pad_to_asp img asp =
      { w := img.w, h := (⌊(img.w : ℚ) / asp⌋).toNat,
        px := fun x y =>
          if x < img.w ∧ ((⌊(img.w : ℚ) / asp⌋).toNat - img.h) / 2 ≤ y ∧
             y < ((⌊(img.w : ℚ) / asp⌋).toNat - img.h) / 2 + img.h
          then img.px x (y - ((⌊(img.w : ℚ) / asp⌋).toNat - img.h) / 2)
          else MEAN_CHANNEL_VALS } := by
  simp only [pad_to_asp]
  rw [if_neg (by exact not_lt.mpr h.le), if_pos h]

/-- Branch of `_pad_to_asp` when the image already has the target
aspect ratio: no-op. -/
theorem pad_to_asp_of_eq (img : PImage) (asp : ℚ)
    (h : (img.w : ℚ) / (img.h : ℚ) = asp) :
    pad_to_asp img asp = img := by
  simp only [pad_to_asp]
  rw [if_neg (by rw [h]; exact lt_irrefl asp), if_neg (by rw [h]; exact lt_irrefl asp)]

/-- An image narrower than `asp` whose padded width recomputes to its
own width and whose out-of-bounds pixels are already the mean value
is a fixed point of `_pad_to_asp`. -/
theorem pad_to_asp_fixed_of_lt (J : PImage) (asp : ℚ)
    (h : (J.w : ℚ) / (J.h : ℚ) < asp)
    (hw2 : (⌊(J.h : ℚ) * asp⌋).toNat = J.w)
    (hframe : ∀ x y, J.w ≤ x ∨ J.h ≤ y → J.px x y = MEAN_CHANNEL_VALS) :
    pad_to_asp J asp = J := by
  rw [pad_to_asp_of_lt J asp h]
  refine PImage.ext hw2 rfl ?_
  funext x y
  simp only [hw2, Nat.sub_self, Nat.zero_div, Nat.zero_add, Nat.zero_le,
    true_and, Nat.sub_zero]
  by_cases hxy : x < J.w ∧ y < J.h
  · rw [if_pos hxy]
  · rw [if_neg hxy]
    refine (hframe x y ?_).symm
    omega

/-- An image shorter than `asp` whose padded height recomputes to its
own height and whose out-of-bounds pixels are already the mean value
is a fixed point of `_pad_to_asp`. -/
theorem pad_to_asp_fixed_of_gt (J : PImage) (asp : ℚ)
    (h : asp < (J.w : ℚ) / (J.h : ℚ))
    (hh2 : (⌊(J.w : ℚ) / asp⌋).toNat = J.h)
    (hframe : ∀ x y, J.w ≤ x ∨ J.h ≤ y → J.px x y = MEAN_CHANNEL_VALS) :
    pad_to_asp J asp = J := by
  rw [pad_to_asp_of_gt J asp h]
  refine PImage.ext rfl hh2 ?_
  funext x y
  simp only [hh2, Nat.sub_self, Nat.zero_div, Nat.zero_add, Nat.zero_le,
    true_and, Nat.sub_zero]
  by_cases hxy : x < J.w ∧ y < J.h
  · rw [if_pos ⟨hxy.1, hxy.2⟩]
  · rw [if_neg ?_]
    · refine (hframe x y ?_).symm
      omega
    · omega

/-- C6: `_pad_to_asp` is idempotent — applying it with a given aspect
ratio to its own output returns the output unchanged — and an image
that already matches the target aspect ratio exactly is returned
unchanged. -/
theorem pad_to_asp_idempotent (img : PImage) (asp : ℚ)
    (hw : 1 ≤ img.w) (hh : 1 ≤ img.h) (hasp : 0 < asp) :
    pad_to_asp (pad_to_asp img asp) asp = pad_to_asp img asp ∧
    ((img.w : ℚ) / (img.h : ℚ) = asp → pad_to_asp img asp = img) := by
  refine ⟨?_, fun he => pad_to_asp_of_eq img asp he⟩
  have hH0 : (0 : ℚ) < (img.h : ℚ) := by exact_mod_cast hh
  have hW0 : (0 : ℚ) < (img.w : ℚ) := by exact_mod_cast hw
  rcases lt_trichotomy ((img.w : ℚ) / (img.h : ℚ)) asp with h | h | h
  · -- the image is too narrow: the first application pads out width
    have hkey := pad_to_asp_of_lt img asp h
    have hWlt : (img.w : ℚ) < (img.h : ℚ) * asp := by
      rw [div_lt_iff hH0] at h
      nlinarith [h]
    have hfl_ge : (img.w : ℤ) ≤ ⌊(img.h : ℚ) * asp⌋ := by
      rw [Int.le_floor]
      exact_mod_cast hWlt.le
    have hfl_nonneg : (0 : ℤ) ≤ ⌊(img.h : ℚ) * asp⌋ :=
      le_trans (by exact_mod_cast Nat.zero_le img.w) hfl_ge
    set nw := (⌊(img.h : ℚ) * asp⌋).toNat with hnw
    have hWnw : img.w ≤ nw := by omega
    have hnwcast : ((nw : ℤ)) = ⌊(img.h : ℚ) * asp⌋ := by
      rw [hnw]
      exact Int.toNat_of_nonneg hfl_nonneg
    have hnw_le : (nw : ℚ) ≤ (img.h : ℚ) * asp := by
      have h1 := Int.floor_le ((img.h : ℚ) * asp)
      rw [← hnwcast] at h1
      exact_mod_cast h1
    have hrat : (nw : ℚ) / (img.h : ℚ) ≤ asp := by
      rw [div_le_iff hH0]
      nlinarith [hnw_le]
    have hframe : ∀ x y,
        (pad_to_asp img asp).w ≤ x ∨ (pad_to_asp img asp).h ≤ y →
        (pad_to_asp img asp).px x y = MEAN_CHANNEL_VALS := by
      intro x y hxy
      rw [hkey] at hxy ⊢
      have hx2 : nw ≤ x ∨ img.h ≤ y := hxy
      show (if (nw - img.w) / 2 ≤ x ∧ x < (nw - img.w) / 2 + img.w ∧ y < img.h
            then img.px (x - (nw - img.w) / 2) y else MEAN_CHANNEL_VALS) =
        MEAN_CHANNEL_VALS
      rw [if_neg (by omega)]
    rcases eq_or_lt_of_le hrat with heq | hlt
    · apply pad_to_asp_of_eq
      rw [hkey]
      exact heq
    · apply pad_to_asp_fixed_of_lt
      · rw [hkey]
        exact hlt
      · rw [hkey]
      · exact hframe
  · -- the image already matches: the first application is a no-op
    rw [pad_to_asp_of_eq img asp h]
    exact pad_to_asp_of_eq img asp h
  · -- the image is too short: the first application pads out height
    have hkey := pad_to_asp_of_gt img asp h
    have hHlt : (img.h : ℚ) * asp < (img.w : ℚ) := by
      rw [lt_div_iff hH0] at h
      nlinarith [h]
    have hfl_ge : (img.h : ℤ) ≤ ⌊(img.w : ℚ) / asp⌋ := by
      rw [Int.le_floor]
      rw [le_div_iff hasp]
      push_cast
      nlinarith [hHlt.le]
    have hfl_nonneg : (0 : ℤ) ≤ ⌊(img.w : ℚ) / asp⌋ :=
      le_trans (by exact_mod_cast Nat.zero_le img.h) hfl_ge
    set nh := (⌊(img.w : ℚ) / asp⌋).toNat with hnh
    have hHnh : img.h ≤ nh := by omega
    have hnh0 : (0 : ℚ) < (nh : ℚ) := by
      have : 1 ≤ nh := le_trans hh hHnh
      exact_mod_cast this
    have hnhcast : ((nh : ℤ)) = ⌊(img.w : ℚ) / asp⌋ := by
      rw [hnh]
      exact Int.toNat_of_nonneg hfl_nonneg
    have hnh_le : (nh : ℚ) ≤ (img.w : ℚ) / asp := by
      have h1 := Int.floor_le ((img.w : ℚ) / asp)
      rw [← hnhcast] at h1
      exact_mod_cast h1
    have hrat : asp ≤ (img.w : ℚ) / (nh : ℚ) := by
      rw [le_div_iff hnh0]
      rw [le_div_iff hasp] at hnh_le
      nlinarith [hnh_le]
    have hframe : ∀ x y,
        (pad_to_asp img asp).w ≤ x ∨ (pad_to_asp img asp).h ≤ y →
        (pad_to_asp img asp).px x y = MEAN_CHANNEL_VALS := by
      intro x y hxy
      rw [hkey] at hxy ⊢
      have hx2 : img.w ≤ x ∨ nh ≤ y := hxy
      show (if x < img.w ∧ (nh - img.h) / 2 ≤ y ∧ y < (nh - img.h) / 2 + img.h
            then img.px x (y - (nh - img.h) / 2) else MEAN_CHANNEL_VALS) =
        MEAN_CHANNEL_VALS
      rw [if_neg (by omega)]
    rcases eq_or_lt_of_le hrat with heq | hlt
    · apply pad_to_asp_of_eq
      rw [hkey]
      exact heq.symm
    · apply pad_to_asp_fixed_of_gt
      · rw [hkey]
        exact hlt
      · rw [hkey]
      · exact hframe

/-- Witness for `pad_to_asp_idempotent` at a 16 x 9 image (already at
ratio 16/9) with target aspect ratio 16/9. -/
theorem pad_to_asp_idempotent_witness :
    1 ≤ (PImage.mk 16 9 (fun _ _ => (1, 2, 3))).w ∧
    1 ≤ (PImage.mk 16 9 (fun _ _ => (1, 2, 3))).h ∧
    (0 : ℚ) < 16 / 9 ∧
    (pad_to_asp (pad_to_asp (PImage.mk 16 9 (fun _ _ => (1, 2, 3))) (16 / 9)) (16 / 9) =
        pad_to_asp (PImage.mk 16 9 (fun _ _ => (1, 2, 3))) (16 / 9) ∧
      (((PImage.mk 16 9 (fun _ _ => (1, 2, 3))).w : ℚ) /
          ((PImage.mk 16 9 (fun _ _ => (1, 2, 3))).h : ℚ) = 16 / 9 →
        pad_to_asp (PImage.mk 16 9 (fun _ _ => (1, 2, 3))) (16 / 9) =
          PImage.mk 16 9 (fun _ _ => (1, 2, 3)))) :=
  ⟨by decide, by decide, by norm_num,
    pad_to_asp_idempotent (PImage.mk 16 9 (fun _ _ => (1, 2, 3))) (16 / 9)
      (by decide) (by decide) (by norm_num)⟩
